import Mathlib

/-!
Verification of the construction-chatbot ingestion-and-retrieval core.

The definitions below are a shallow embedding of the Python sources:
`app/document_processor.py`, `app/retriever.py`, `app/chatbot.py`,
`app/pdf_handler.py` and `app/config.py`.  Pure string manipulation is
embedded as Lean functions on `String`/`List Char`; the stateful batch
accumulator and conversation history are embedded as explicit state
passing; calls that can raise are embedded as `Except`/`Option` results.
External services (vector store, cache, generation) are embedded as
explicit parameters or keyed lists, following the collaborator contracts
the spec assigns them.
-/

set_option autoImplicit false

namespace App

/-! ### Character-level helpers for the Python regex patterns

`app/document_processor.py` matches lines against four anchored regexes
via `re.match`.  We embed each pattern as an anchored matcher on
`List Char`.  `\d` is a decimal digit, `\s` whitespace, `[A-Z]` an ASCII
uppercase letter; `Char.isDigit`, `Char.isWhitespace` and `Char.isUpper`
implement exactly these ASCII classes. -/

/-- Drop the longest run of characters satisfying `p` (greedy `p*`). -/
def eatWhile (p : Char → Bool) : List Char → List Char
  | [] => []
  | c :: cs => if p c then eatWhile p cs else c :: cs

/-- Anchored `p+`: requires at least one character satisfying `p`,
then drops the longest run.  `none` when the first character fails. -/
def eatWhile1 (p : Char → Bool) : List Char → Option (List Char)
  | [] => none
  | c :: cs => if p c then some (eatWhile p cs) else none

/-- Anchored literal: consume exactly the characters of `lit`. -/
def eatLit : List Char → List Char → Option (List Char)
  | [], cs => some cs
  | _ :: _, [] => none
  | l :: ls, c :: cs => if c = l then eatLit ls cs else none

/-- Regex `^\d+\.\d+\s+[A-Z]` (e.g. "1.1 GENERAL"). -/
def matchPat1 (cs : List Char) : Bool :=
  match eatWhile1 Char.isDigit cs with
  | none => false
  | some r1 =>
    match r1 with
    | '.' :: r2 =>
      match eatWhile1 Char.isDigit r2 with
      | none => false
      | some r3 =>
        match eatWhile1 Char.isWhitespace r3 with
        | none => false
        | some (c :: _) => c.isUpper
        | some [] => false
    | _ => false

/-- Regex `^SECTION\s+\d{2}` (e.g. "SECTION 01"). -/
def matchPat2 (cs : List Char) : Bool :=
  match eatLit "SECTION".toList cs with
  | none => false
  | some r1 =>
    match eatWhile1 Char.isWhitespace r1 with
    | none => false
    | some (a :: b :: _) => a.isDigit && b.isDigit
    | some _ => false

/-- Regex `^Article\s+\d+` (e.g. "Article 1"). -/
def matchPat3 (cs : List Char) : Bool :=
  match eatLit "Article".toList cs with
  | none => false
  | some r1 =>
    match eatWhile1 Char.isWhitespace r1 with
    | none => false
    | some (c :: _) => c.isDigit
    | some [] => false

/-- Regex `^\d+\.\s+[A-Z]` (e.g. "1. SCOPE"). -/
def matchPat4 (cs : List Char) : Bool :=
  match eatWhile1 Char.isDigit cs with
  | none => false
  | some r1 =>
    match r1 with
    | '.' :: r2 =>
      match eatWhile1 Char.isWhitespace r2 with
      | none => false
      | some (c :: _) => c.isUpper
      | some [] => false
    | _ => false

/-- `DocumentProcessor._is_section_header`: `any(re.match(p, line) ...)`
over the four header patterns, in their listed order. -/
def _is_section_header (line : String) : Bool :=
  matchPat1 line.data || matchPat2 line.data || matchPat3 line.data || matchPat4 line.data

/-! ### Python string primitives used by the sectioner -/

/-- Character-list core of Python `str.strip()`: remove leading and
trailing whitespace. -/
def stripChars (cs : List Char) : List Char :=
  ((cs.dropWhile Char.isWhitespace).reverse.dropWhile Char.isWhitespace).reverse

/-- Python `line.strip()`. -/
def pyStrip (s : String) : String := String.mk (stripChars s.data)

/-- Character-list core of Python `text.split(sep)` for a single-character
separator: splits on every occurrence, keeping empty pieces, and yields
`[[]]` on empty input. -/
def splitOnChar (sep : Char) : List Char → List (List Char)
  | [] => [[]]
  | c :: cs =>
    if c = sep then [] :: splitOnChar sep cs
    else
      match splitOnChar sep cs with
      | [] => [[c]]
      | l :: ls => (c :: l) :: ls

/-- Python `text.split('\n')`. -/
def pySplitLines (text : String) : List String :=
  (splitOnChar '\n' text.data).map String.mk

/-! ### Sectioner (`DocumentProcessor._split_into_sections`) -/

/-- The section record `{'title': ..., 'content': ..., 'page': ...}`. -/
structure Section where
  title : String
  content : String
  page : Nat
deriving DecidableEq, Repr

/-- The `for line in lines` loop of `_split_into_sections`, with the
current section's title and content threaded as state.  Stripping, the
blank-line skip, the header test, the emit-only-if-content rule and the
final flush mirror the source line by line. -/
def sectionsLoop (page : Nat) (t c : String) : List String → List Section
  | [] => if c = "" then [] else [⟨t, c, page⟩]
  | l :: ls =>
    let line := pyStrip l
    if line = "" then sectionsLoop page t c ls
    else if _is_section_header line then
      if c = "" then sectionsLoop page line "" ls
      else ⟨t, c, page⟩ :: sectionsLoop page line "" ls
    else sectionsLoop page t (c ++ line ++ "\n") ls

/-- `DocumentProcessor._split_into_sections(text, page_num)`. -/
def _split_into_sections (text : String) (page_num : Nat) : List Section :=
  sectionsLoop page_num "" "" (pySplitLines text)

/-- The body a header-free run of lines contributes to the current
section: each stripped non-blank line followed by a newline. -/
def bodyOf : List String → String
  | [] => ""
  | l :: rest => (if pyStrip l = "" then "" else pyStrip l ++ "\n") ++ bodyOf rest

/-! ### Settings (`app/config.py`) -/

/-- `Settings.BATCH_SIZE` default value. -/
def BATCH_SIZE : Nat := 10

/-! ### Batch accumulator (`DocumentRetriever` in `app/retriever.py`)

Timestamps are whole seconds (`datetime.now()` deltas compared through
`.seconds`), embedded as `Nat`. -/

/-- One element of `self.batch_queue`. -/
structure BatchEntry where
  doc_id : String
  sections : List Section
  timestamp : Nat
deriving DecidableEq, Repr

/-- The metadata dict built in `_process_batch`. -/
structure Metadata where
  doc_id : String
  title : String
  page : Nat
  processed_at : Nat
deriving DecidableEq, Repr

/-- One vector-store record: id, document text, metadata. -/
structure IndexedRecord where
  id : String
  content : String
  metadata : Metadata
deriving DecidableEq, Repr

/-- The records `_process_batch` builds from one queued item: for the
section at index `idx`, id `"<doc_id>_section_<idx>"`, the section
content as document text, and `{doc_id, title, page, processed_at}`. -/
def sectionRecords (now : Nat) (item : BatchEntry) : List IndexedRecord :=
  item.sections.enum.map fun p =>
    ⟨item.doc_id ++ "_section_" ++ toString p.1, p.2.content,
      ⟨item.doc_id, p.2.title, p.2.page, now⟩⟩

/-- All records of one flush, over the whole queue in order. -/
def batchRecords (now : Nat) (queue : List BatchEntry) : List IndexedRecord :=
  (queue.map (sectionRecords now)).flatten

/-- Modelled from the spec: the vector store (`chromadb` collection, an
excluded external collaborator) keyed by record id — inserting an id
that is already present overwrites that record rather than duplicating
it. -/
def storeUpsert (st : List IndexedRecord) (r : IndexedRecord) : List IndexedRecord :=
  st.filter (fun x => x.id != r.id) ++ [r]

/-- `collection.add(documents, metadatas, ids)` over a record batch. -/
def storeInsert (st : List IndexedRecord) (recs : List IndexedRecord) : List IndexedRecord :=
  recs.foldl storeUpsert st

/-- Number of records in the store carrying a given id. -/
def countId (st : List IndexedRecord) (i : String) : Nat :=
  (st.filter fun r => r.id == i).length

/-- The mutable fields of `DocumentRetriever` that the accumulator
touches: the store contents, `self.batch_queue`, `self.last_process_time`. -/
structure RetrieverState where
  store : List IndexedRecord
  batch_queue : List BatchEntry
  last_process_time : Nat
deriving DecidableEq, Repr

/-- Outcome of an accumulator call: the object state it leaves behind,
`some ()` if an exception propagated to the caller, and how many
vector-store insert calls were issued. -/
structure CallResult where
  state : RetrieverState
  err : Option Unit
  store_calls : Nat
deriving DecidableEq, Repr

/-- `DocumentRetriever._process_batch()`.  `ok` says whether the
store insert succeeds; `now` is the current time in seconds.  An empty
queue returns immediately; on success the store is extended, the flush
time recorded and the queue cleared; on failure the exception re-raises
with every field untouched. -/
def _process_batch (ok : Bool) (now : Nat) (s : RetrieverState) : CallResult :=
  if s.batch_queue = [] then ⟨s, none, 0⟩
  else if ok then
    ⟨⟨storeInsert s.store (batchRecords now s.batch_queue), [], now⟩, none, 1⟩
  else ⟨s, some (), 1⟩

/-- `DocumentRetriever.add_sections(doc_id, sections)`.  `sfx` is the
fresh `uuid4().hex[:8]` suffix drawn for this call.  Appends the entry,
then flushes when the queue length reaches `BATCH_SIZE` or
`(datetime.now() - self.last_process_time).seconds > 60`.  Note that
`timedelta.seconds` is the seconds component of the normalized delta —
the day-remainder in `[0, 86400)`, not the total elapsed seconds — so
the time trigger compares `(now - last) % 86400` against 60. -/
def add_sections (ok : Bool) (now : Nat) (sfx : String) (s : RetrieverState)
    (doc_id : String) (sections : List Section) : CallResult :=
  let entry : BatchEntry := ⟨doc_id ++ "_" ++ sfx, sections, now⟩
  let s1 : RetrieverState := ⟨s.store, s.batch_queue ++ [entry], s.last_process_time⟩
  if BATCH_SIZE ≤ s1.batch_queue.length ∨ 60 < (now - s.last_process_time) % 86400 then
    _process_batch ok now s1
  else ⟨s1, none, 0⟩

/-- A sequence of `add_sections` calls at one time instant, returning the
final state and the total number of store calls issued. -/
def enqueueAll (ok : Bool) (now : Nat) :
    RetrieverState → List (String × String × List Section) → RetrieverState × Nat
  | s, [] => (s, 0)
  | s, (d, sfx, secs) :: rest =>
    let r := add_sections ok now sfx s d secs
    let q := enqueueAll ok now r.state rest
    (q.1, r.store_calls + q.2)

/-! ### Answer engine (`DocumentRetriever.query` / `_generate_response`) -/

/-- One element of an Answer's `sources` list. -/
structure SourceRef where
  title : String
  page : Nat
  doc_id : String
deriving DecidableEq, Repr

/-- The response dict `{answer, sources}`. -/
structure Answer where
  answer : String
  sources : List SourceRef
deriving DecidableEq, Repr

/-- One `redis.set(key, value, ex=ttl)` call. -/
structure CacheWrite where
  key : String
  value : Answer
  ttl : Nat
deriving DecidableEq, Repr

/-- The shape of `collection.query` results: `documents` and `metadatas`
hold one inner list per query text. -/
structure ChromaResult where
  documents : List (List String)
  metadatas : List (List Metadata)
deriving Repr

/-- The canned empty-retrieval answer text in `DocumentRetriever.query`. -/
def no_results_message : String :=
  "I couldn\x27t find anything relevant in the docs. Could you try rephrasing?"

/-- `DocumentRetriever._generate_response`: the Answer built from the
generation output (`genText`, the opaque LLM collaborator) and the
retrieved metadata in store order. -/
def _generate_response (genText : String) (results : ChromaResult) : Answer :=
  ⟨genText, (results.metadatas.headD []).map fun m => ⟨m.title, m.page, m.doc_id⟩⟩

/-- `DocumentRetriever.query(question)` as a function of its external
inputs: `cached` the redis lookup result, `results` the vector-store
query result, `genText` the generation output.  Returns the answer and
the cache writes issued. -/
def query (cached : Option Answer) (results : ChromaResult) (genText : String)
    (question : String) : Answer × List CacheWrite :=
  match cached with
  | some a => (a, [])
  | none =>
    if results.documents = [] ∨ results.documents.headD [] = [] then
      (⟨no_results_message, []⟩, [])
    else
      let resp := _generate_response genText results
      (resp, [⟨"query:" ++ question, resp, 300⟩])

/-! ### Conversation window (`ConstructionChatbot` in `app/chatbot.py`) -/

/-- One entry of `self.history`. -/
structure ConvEntry where
  question : String
  answer : String
  timestamp : String
deriving DecidableEq, Repr

/-- The history update in `chat`: append the new entry, then `pop(0)`
once if the length exceeds 5. -/
def recordEntry (hist : List ConvEntry) (e : ConvEntry) : List ConvEntry :=
  let h := hist ++ [e]
  if 5 < h.length then h.tail else h

/-- A sequence of successful chat turns acting on the history. -/
def recordAll (hist : List ConvEntry) (es : List ConvEntry) : List ConvEntry :=
  es.foldl recordEntry hist

/-- `ConstructionChatbot._get_context()`: preamble line, then `Q:`/`A:`
pairs for `history[-2:]`, joined with newlines. -/
def _get_context (hist : List ConvEntry) : String :=
  let pairs := (hist.drop (hist.length - 2)).foldr
    (fun e acc => ("Q: " ++ e.question) :: ("A: " ++ e.answer ++ "\n") :: acc) []
  String.intercalate "\n" ("Recent conversation:" :: pairs)

/-- The context argument `chat` passes to `query`:
`self._get_context() if self.history else None`. -/
def contextFor (hist : List ConvEntry) : Option String :=
  if hist = [] then none else some (_get_context hist)

/-- `ConstructionChatbot.chat(message)` acting on the history field.
`queryRes` is the outcome of `self.retriever.query`; an exception there
re-raises before the history is touched. -/
def chat (hist : List ConvEntry) (queryRes : Except Unit Answer) (message ts : String) :
    Except Unit Answer × List ConvEntry :=
  match queryRes with
  | Except.error e => (Except.error e, hist)
  | Except.ok resp => (Except.ok resp, recordEntry hist ⟨message, resp.answer, ts⟩)

/-! ### PDF handler (`FitzPDFHandler` in `app/pdf_handler.py`) -/

/-- Modelled from the spec: the PDF text-extraction backend (`fitz`
document, an excluded external collaborator treated as a per-page text
capability) as the list of its page texts; 0-based page access raises
`IndexError` outside `[0, page_count)`. -/
def documentGetItem (pages : List String) (i : Int) : Option String :=
  if 0 ≤ i ∧ i < (pages.length : Int) then some (pages.getD i.toNat "") else none

/-- `FitzPDFHandler.number_of_pages`. -/
def number_of_pages (pages : List String) : Nat := pages.length

/-- `FitzPDFHandler.get_page_text(page_number)`: 1-based access, with
`IndexError` mapped to the range `ValueError`. -/
def get_page_text (pages : List String) (page_number : Int) : Except String String :=
  match documentGetItem pages (page_number - 1) with
  | some t => Except.ok t
  | none => Except.error ("Page number " ++ toString page_number ++ " out of range")

/-! ### Theorems -/

theorem str_append_assoc (a b c : String) : a ++ b ++ c = a ++ (b ++ c) := by
  apply String.ext
  simp [String.data_append]

theorem str_append_eq_empty (a b : String) : a ++ b = "" ↔ a = "" ∧ b = "" := by
  constructor
  · intro h
    have hd := congrArg String.data h
    simp [String.data_append] at hd
    constructor <;> apply String.ext <;> simp [hd.1, hd.2]
  · rintro ⟨rfl, rfl⟩
    rfl

theorem str_empty_append (a : String) : "" ++ a = a := by
  apply String.ext
  simp [String.data_append]

/-- On a run of lines none of which strips to a header, the loop only
accumulates content: it returns the single section `⟨t, c ++ body⟩`
(or nothing when that content is empty). -/
theorem sectionsLoop_no_header (page : Nat) (ls : List String)
    (h : ∀ l ∈ ls, ¬ _is_section_header (pyStrip l)) (t c : String) :
    sectionsLoop page t c ls =
      if c ++ bodyOf ls = "" then [] else [⟨t, c ++ bodyOf ls, page⟩] := by
  induction ls generalizing c with
  | nil =>
    simp only [sectionsLoop, bodyOf]
    by_cases hc : c = "" <;> simp [hc, str_append_eq_empty]
  | cons l rest ih =>
    have hl : ¬ _is_section_header (pyStrip l) := h l (by simp)
    have hrest : ∀ x ∈ rest, ¬ _is_section_header (pyStrip x) :=
      fun x hx => h x (by simp [hx])
    by_cases hb : pyStrip l = ""
    · simp only [sectionsLoop, hb, if_pos rfl, bodyOf, ih hrest, str_empty_append]
      simp [hb]
    · simp only [sectionsLoop, bodyOf, ih hrest]
      simp [hb, hl, str_append_assoc]

/-- A line whose stripped form is a header strips to something non-empty. -/
theorem header_strip_ne_empty (l : String) (h : _is_section_header (pyStrip l) = true) :
    pyStrip l ≠ "" := by
  intro he
  rw [he] at h
  exact absurd h (by decide)

/-- C1 (counterexample): the empty page text has no header-matching
line, yet `_split_into_sections` returns no section at all rather than
exactly one; and for `" a "` the single returned section's content is
the stripped line plus a newline, not the page text itself. -/
theorem C1_counterexample :
    ((pySplitLines "").all (fun l => !_is_section_header (pyStrip l)) = true ∧
      _split_into_sections "" 1 = []) ∧
    ((pySplitLines " a ").all (fun l => !_is_section_header (pyStrip l)) = true ∧
      _split_into_sections " a " 1 = [⟨"", "a\n", 1⟩] ∧ ("a\n" : String) ≠ " a ") := by
  decide

/-- C1 (amended): for every page text none of whose stripped lines
matches a header pattern, `_split_into_sections` returns exactly one
Section with empty title whose content is the concatenation of the
text's stripped non-blank lines each followed by a newline — provided
that content is non-empty (i.e. some line is non-blank); a text whose
lines are all blank yields no sections. -/
theorem C1_no_header_single_section (text : String) (page_num : Nat)
    (h : ∀ l ∈ pySplitLines text, ¬ _is_section_header (pyStrip l)) :
    _split_into_sections text page_num =
      if bodyOf (pySplitLines text) = "" then []
      else [⟨"", bodyOf (pySplitLines text), page_num⟩] := by
  unfold _split_into_sections
  rw [sectionsLoop_no_header page_num (pySplitLines text) (by simpa using h) "" ""]
  rw [str_empty_append]

/-- Witness for C1 (amended) at the concrete header-free text "hello". -/
theorem C1_witness :
    (∀ l ∈ pySplitLines "hello", ¬ _is_section_header (pyStrip l)) ∧
    _split_into_sections "hello" 1 = [⟨"", "hello\n", 1⟩] :=
  ⟨by decide, (C1_no_header_single_section "hello" 1 (by decide)).trans (by decide)⟩

/-- C7: while sectioning, a header line seen with no accumulated content
replaces the current title and emits nothing; hence two consecutive
headers collapse to the second; at end of input the current section is
appended exactly when its content is non-empty; and a trailing header
line with no body text is dropped. -/
theorem C7_header_collapse_and_final_flush (page : Nat) :
    (∀ t l ls, _is_section_header (pyStrip l) = true →
      sectionsLoop page t "" (l :: ls) = sectionsLoop page (pyStrip l) "" ls) ∧
    (∀ t l1 l2 ls, _is_section_header (pyStrip l1) = true →
      _is_section_header (pyStrip l2) = true →
      sectionsLoop page t "" (l1 :: l2 :: ls) = sectionsLoop page (pyStrip l2) "" ls) ∧
    (∀ t c, sectionsLoop page t c [] =
      if c = "" then [] else [⟨t, c, page⟩]) ∧
    (∀ t c l, _is_section_header (pyStrip l) = true →
      sectionsLoop page t c [l] = if c = "" then [] else [⟨t, c, page⟩]) := by
  refine ⟨?_, ?_, ?_, ?_⟩
  · intro t l ls hl
    simp [sectionsLoop, header_strip_ne_empty l hl, hl]
  · intro t l1 l2 ls h1 h2
    simp [sectionsLoop, header_strip_ne_empty l1 h1, h1,
      header_strip_ne_empty l2 h2, h2]
  · intro t c
    rfl
  · intro t c l hl
    by_cases hc : c = "" <;>
      simp [sectionsLoop, header_strip_ne_empty l hl, hl, hc]

/-- Witness for C7 at concrete header lines. -/
theorem C7_witness :
    _is_section_header (pyStrip "1.1 A") = true ∧
    sectionsLoop 1 "T" "" ["1.1 A"] = sectionsLoop 1 (pyStrip "1.1 A") "" [] ∧
    sectionsLoop 1 "T" "" ["1.1 A", "1.2 B"] = sectionsLoop 1 (pyStrip "1.2 B") "" [] ∧
    sectionsLoop 1 "T" "body\n" ["1.1 A"] = [⟨"T", "body\n", 1⟩] :=
  ⟨by decide,
    (C7_header_collapse_and_final_flush 1).1 "T" "1.1 A" [] (by decide),
    (C7_header_collapse_and_final_flush 1).2.1 "T" "1.1 A" "1.2 B" [] (by decide) (by decide),
    ((C7_header_collapse_and_final_flush 1).2.2.2 "T" "body\n" "1.1 A" (by decide)).trans
      (by decide)⟩

/-! ### Store counting lemmas -/

theorem countId_append (a b : List IndexedRecord) (i : String) :
    countId (a ++ b) i = countId a i + countId b i := by
  simp [countId, List.filter_append]

theorem countId_cons (a : IndexedRecord) (st : List IndexedRecord) (i : String) :
    countId (a :: st) i = (if a.id = i then 1 else 0) + countId st i := by
  by_cases h : a.id = i
  · simp [countId, List.filter_cons, h]
    omega
  · simp [countId, List.filter_cons, h]

theorem countId_filter_out (st : List IndexedRecord) (j : String) :
    countId (st.filter fun x => x.id != j) j = 0 := by
  induction st with
  | nil => rfl
  | cons a as ih =>
    by_cases h : a.id = j
    · rw [List.filter_cons_of_neg (by simp [h])]
      exact ih
    · rw [List.filter_cons_of_pos (by simp [h]), countId_cons]
      simp [h, ih]

theorem countId_filter_keep (st : List IndexedRecord) (i j : String) (h : i ≠ j) :
    countId (st.filter fun x => x.id != j) i = countId st i := by
  induction st with
  | nil => rfl
  | cons a as ih =>
    by_cases ha : a.id = j
    · rw [List.filter_cons_of_neg (by simp [ha]), countId_cons]
      have hai : a.id ≠ i := fun hh => h (hh.symm.trans ha)
      simp [hai, ih]
    · rw [List.filter_cons_of_pos (by simp [ha]), countId_cons, countId_cons, ih]

theorem countId_upsert (st : List IndexedRecord) (r : IndexedRecord) (i : String) :
    countId (storeUpsert st r) i = if i = r.id then 1 else countId st i := by
  unfold storeUpsert
  rw [countId_append]
  by_cases h : i = r.id
  · subst h
    rw [countId_filter_out]
    simp [countId]
  · rw [countId_filter_keep st i r.id h, if_neg h]
    have hr : ¬ (r.id = i) := fun hh => h hh.symm
    simp [countId, hr]

theorem countId_storeInsert (recs : List IndexedRecord) (st : List IndexedRecord)
    (i : String) :
    countId (storeInsert st recs) i =
      if i ∈ recs.map (fun r => r.id) then 1 else countId st i := by
  induction recs generalizing st with
  | nil => simp [storeInsert]
  | cons r rs ih =>
    have hstep : storeInsert st (r :: rs) = storeInsert (storeUpsert st r) rs := rfl
    rw [hstep, ih]
    by_cases hm : i ∈ rs.map (fun r => r.id)
    · simp [hm]
    · by_cases hr : i = r.id <;> simp [hm, hr, countId_upsert]

/-- The ids `_process_batch` assigns to one item's sections, in order. -/
theorem sectionRecords_ids (now : Nat) (item : BatchEntry) :
    (sectionRecords now item).map (fun r => r.id) =
      (List.range item.sections.length).map
        (fun j => item.doc_id ++ "_section_" ++ toString j) := by
  unfold sectionRecords
  rw [List.map_map]
  have h1 : ((fun r : IndexedRecord => r.id) ∘ fun p : Nat × Section =>
      (⟨item.doc_id ++ "_section_" ++ toString p.1, p.2.content,
        ⟨item.doc_id, p.2.title, p.2.page, now⟩⟩ : IndexedRecord)) =
      (fun j => item.doc_id ++ "_section_" ++ toString j) ∘ Prod.fst := rfl
  rw [h1, ← List.map_map, List.enum_map_fst]

theorem mem_batchRecords_ids (q : List BatchEntry) (e : BatchEntry) (he : e ∈ q)
    (i : Nat) (hi : i < e.sections.length) (now : Nat) :
    (e.doc_id ++ "_section_" ++ toString i) ∈ (batchRecords now q).map (fun r => r.id) := by
  unfold batchRecords
  rw [List.map_flatten]
  apply List.mem_flatten.mpr
  refine ⟨(sectionRecords now e).map (fun r => r.id), ?_, ?_⟩
  · rw [List.map_map]
    exact List.mem_map.mpr ⟨e, he, rfl⟩
  · rw [sectionRecords_ids]
    exact List.mem_map.mpr ⟨i, List.mem_range.mpr hi, rfl⟩

/-- C2: every Indexed Record id of a flushed Batch Entry is
`"<doc_id>_section_<index>"`; the id of the entry's section `i` is
present in the flush; and because the id is a pure function of the
entry's doc_id and index, flushing the same doc_id and index a second
time (even at another timestamp) leaves exactly one record with that id
in the store — an overwrite, not a duplicate. -/
theorem C2_record_identity (q : List BatchEntry) (e : BatchEntry) (he : e ∈ q)
    (i : Nat) (hi : i < e.sections.length) (now now2 : Nat) (st : List IndexedRecord) :
    (∀ r ∈ sectionRecords now e, ∃ j, j < e.sections.length ∧
        r.id = e.doc_id ++ "_section_" ++ toString j) ∧
    (e.doc_id ++ "_section_" ++ toString i) ∈ (batchRecords now q).map (fun r => r.id) ∧
    countId (storeInsert (storeInsert st (batchRecords now q)) (batchRecords now2 q))
        (e.doc_id ++ "_section_" ++ toString i) = 1 := by
  refine ⟨?_, mem_batchRecords_ids q e he i hi now, ?_⟩
  · intro r hr
    have hid : r.id ∈ (sectionRecords now e).map (fun r => r.id) :=
      List.mem_map.mpr ⟨r, hr, rfl⟩
    rw [sectionRecords_ids] at hid
    obtain ⟨j, hj, hje⟩ := List.mem_map.mp hid
    exact ⟨j, List.mem_range.mp hj, hje.symm⟩
  · rw [countId_storeInsert]
    simp [mem_batchRecords_ids q e he i hi now2]

/-- Witness for C2 at a one-entry queue with one section. -/
theorem C2_witness :
    ((⟨"d_ab", [⟨"t", "c", 1⟩], 0⟩ : BatchEntry) ∈
      [(⟨"d_ab", [⟨"t", "c", 1⟩], 0⟩ : BatchEntry)]) ∧
    (0 < (1 : Nat)) ∧
    (("d_ab" ++ "_section_" ++ toString 0) ∈
      (batchRecords 0 [⟨"d_ab", [⟨"t", "c", 1⟩], 0⟩]).map (fun r => r.id)) ∧
    countId
      (storeInsert (storeInsert [] (batchRecords 0 [⟨"d_ab", [⟨"t", "c", 1⟩], 0⟩]))
        (batchRecords 7 [⟨"d_ab", [⟨"t", "c", 1⟩], 0⟩]))
      ("d_ab" ++ "_section_" ++ toString 0) = 1 :=
  ⟨by simp, by decide,
    (C2_record_identity [⟨"d_ab", [⟨"t", "c", 1⟩], 0⟩] ⟨"d_ab", [⟨"t", "c", 1⟩], 0⟩
      (by simp) 0 (by decide) 0 7 []).2.1,
    (C2_record_identity [⟨"d_ab", [⟨"t", "c", 1⟩], 0⟩] ⟨"d_ab", [⟨"t", "c", 1⟩], 0⟩
      (by simp) 0 (by decide) 0 7 []).2.2⟩

/-- C3: a flush over a non-empty queue either succeeds — store insert
committed, queue cleared, flush time recorded, no error — or the insert
fails and the error propagates with the retriever state exactly as it
was (queue intact, nothing partially committed). -/
theorem C3_flush_atomicity (s : RetrieverState) (now : Nat) (h : s.batch_queue ≠ []) :
    ((_process_batch true now s).state.batch_queue = [] ∧
     (_process_batch true now s).state.last_process_time = now ∧
     (_process_batch true now s).state.store =
       storeInsert s.store (batchRecords now s.batch_queue) ∧
     (_process_batch true now s).err = none) ∧
    ((_process_batch false now s).err = some () ∧
     (_process_batch false now s).state = s ∧
     (_process_batch false now s).state.batch_queue = s.batch_queue) := by
  unfold _process_batch
  simp [h]

/-- Witness for C3 at a one-entry queue. -/
theorem C3_witness :
    ((⟨[], [⟨"d", [], 0⟩], 0⟩ : RetrieverState).batch_queue ≠ []) ∧
    (_process_batch true 5 ⟨[], [⟨"d", [], 0⟩], 0⟩).state.batch_queue = [] ∧
    (_process_batch true 5 ⟨[], [⟨"d", [], 0⟩], 0⟩).state.last_process_time = 5 ∧
    (_process_batch false 5 ⟨[], [⟨"d", [], 0⟩], 0⟩).err = some () ∧
    (_process_batch false 5 ⟨[], [⟨"d", [], 0⟩], 0⟩).state = ⟨[], [⟨"d", [], 0⟩], 0⟩ :=
  ⟨by decide,
    (C3_flush_atomicity ⟨[], [⟨"d", [], 0⟩], 0⟩ 5 (by decide)).1.1,
    (C3_flush_atomicity ⟨[], [⟨"d", [], 0⟩], 0⟩ 5 (by decide)).1.2.1,
    (C3_flush_atomicity ⟨[], [⟨"d", [], 0⟩], 0⟩ 5 (by decide)).2.1,
    (C3_flush_atomicity ⟨[], [⟨"d", [], 0⟩], 0⟩ 5 (by decide)).2.2.1⟩

/-- Helper for C4: from any state whose queue and the remaining items
add up to exactly `BATCH_SIZE`, with the 60-second window (on the
seconds component of the elapsed delta) not yet expired, the run of
enqueues issues exactly one store call and ends with an empty queue. -/
theorem enqueueAll_one_flush (now : Nat) (items : List (String × String × List Section)) :
    ∀ s : RetrieverState,
      items ≠ [] → s.batch_queue.length + items.length = BATCH_SIZE →
      (now - s.last_process_time) % 86400 ≤ 60 →
      (enqueueAll true now s items).1.batch_queue = [] ∧
      (enqueueAll true now s items).2 = 1 := by
  induction items with
  | nil => exact fun s hne _ _ => absurd rfl hne
  | cons x rest ih =>
    obtain ⟨d, sfx, secs⟩ := x
    intro s _ hlen htime
    have hB : BATCH_SIZE = 10 := rfl
    have hunfold : enqueueAll true now s ((d, sfx, secs) :: rest) =
        ((enqueueAll true now (add_sections true now sfx s d secs).state rest).1,
          (add_sections true now sfx s d secs).store_calls +
            (enqueueAll true now (add_sections true now sfx s d secs).state rest).2) :=
      rfl
    cases rest with
    | nil =>
      simp only [List.length_cons, List.length_nil, BATCH_SIZE] at hlen
      have hcond : BATCH_SIZE ≤ (s.batch_queue ++
          [(⟨d ++ "_" ++ sfx, secs, now⟩ : BatchEntry)]).length ∨
          60 < (now - s.last_process_time) % 86400 := by
        left
        simp only [List.length_append, List.length_cons, List.length_nil]
        omega
      have hq : s.batch_queue ++ [(⟨d ++ "_" ++ sfx, secs, now⟩ : BatchEntry)] ≠ [] := by
        simp
      have hstep : add_sections true now sfx s d secs =
          ⟨⟨storeInsert s.store (batchRecords now
              (s.batch_queue ++ [⟨d ++ "_" ++ sfx, secs, now⟩])), [], now⟩, none, 1⟩ := by
        unfold add_sections
        rw [if_pos hcond]
        unfold _process_batch
        rw [if_neg hq]
        simp
      rw [hunfold, hstep]
      exact ⟨rfl, rfl⟩
    | cons y ys =>
      simp only [List.length_cons, List.length_nil, BATCH_SIZE] at hlen
      have hnotfull : ¬ (BATCH_SIZE ≤ (s.batch_queue ++
          [(⟨d ++ "_" ++ sfx, secs, now⟩ : BatchEntry)]).length ∨
          60 < (now - s.last_process_time) % 86400) := by
        push_neg
        constructor
        · simp only [List.length_append, List.length_cons, List.length_nil]
          omega
        · exact htime
      have hstep : add_sections true now sfx s d secs =
          ⟨⟨s.store, s.batch_queue ++ [⟨d ++ "_" ++ sfx, secs, now⟩],
            s.last_process_time⟩, none, 0⟩ := by
        unfold add_sections
        rw [if_neg hnotfull]
      have hrec := ih ⟨s.store, s.batch_queue ++ [⟨d ++ "_" ++ sfx, secs, now⟩],
          s.last_process_time⟩ (by simp)
        (by
          show (s.batch_queue ++ [(⟨d ++ "_" ++ sfx, secs, now⟩ : BatchEntry)]).length +
            (y :: ys).length = BATCH_SIZE
          simp only [List.length_append, List.length_cons, List.length_nil, BATCH_SIZE]
          omega)
        htime
      rw [hunfold, hstep]
      exact ⟨hrec.1, by rw [Nat.zero_add]; exact hrec.2⟩

/-- C4 (counterexample): the original claim says a flush is triggered
whenever more than 60 seconds have elapsed since the last flush.  The
code compares `timedelta.seconds`, the day-remainder of the delta, so
at elapsed 86430 seconds (one day and 30 seconds) — far more than 60
seconds — an enqueue below the size threshold issues no store call and
leaves the entry queued. -/
theorem C4_counterexample :
    (60 : Nat) < 86430 - 0 ∧
    (add_sections true 86430 "x" ⟨[], [], 0⟩ "d" []).store_calls = 0 ∧
    (add_sections true 86430 "x" ⟨[], [], 0⟩ "d" []).state.batch_queue =
      [⟨"d" ++ "_" ++ "x", [], 86430⟩] := by
  refine ⟨by decide, ?_, ?_⟩ <;> decide

/-- C4 (amended): `add_sections` appends exactly one Batch Entry and
issues a store call exactly when the post-append queue length reaches
`BATCH_SIZE` or the seconds component of the elapsed time since the
last flush (`timedelta.seconds`, i.e. elapsed mod 86400) exceeds 60
(otherwise the state is just the appended queue); enqueuing
`BATCH_SIZE` entries in sequence from an empty queue inside that
60-second window triggers exactly one flush and leaves the queue empty;
and flushing an empty queue is a no-op that issues no store call. -/
theorem C4_enqueue_flush_conditions :
    (∀ (ok : Bool) (now : Nat) (sfx : String) (s : RetrieverState) (d : String)
        (secs : List Section),
      ((add_sections ok now sfx s d secs).store_calls = 1 ↔
        (BATCH_SIZE ≤ s.batch_queue.length + 1 ∨
          60 < (now - s.last_process_time) % 86400)) ∧
      ((add_sections ok now sfx s d secs).store_calls = 0 →
        (add_sections ok now sfx s d secs).state =
          ⟨s.store, s.batch_queue ++ [⟨d ++ "_" ++ sfx, secs, now⟩],
            s.last_process_time⟩)) ∧
    (∀ (now last : Nat) (store : List IndexedRecord)
        (items : List (String × String × List Section)),
      items.length = BATCH_SIZE → (now - last) % 86400 ≤ 60 →
      (enqueueAll true now ⟨store, [], last⟩ items).1.batch_queue = [] ∧
      (enqueueAll true now ⟨store, [], last⟩ items).2 = 1) ∧
    (∀ (ok : Bool) (now last : Nat) (store : List IndexedRecord),
      _process_batch ok now ⟨store, [], last⟩ = ⟨⟨store, [], last⟩, none, 0⟩) := by
  refine ⟨?_, ?_, ?_⟩
  · intro ok now sfx s d secs
    by_cases hc : BATCH_SIZE ≤ s.batch_queue.length + 1 ∨
        60 < (now - s.last_process_time) % 86400
    · have hc2 : BATCH_SIZE ≤ (s.batch_queue ++
          [(⟨d ++ "_" ++ sfx, secs, now⟩ : BatchEntry)]).length ∨
          60 < (now - s.last_process_time) % 86400 := by
        simpa using hc
      have hq : s.batch_queue ++ [(⟨d ++ "_" ++ sfx, secs, now⟩ : BatchEntry)] ≠ [] := by
        simp
      constructor
      · unfold add_sections
        rw [if_pos hc2]
        unfold _process_batch
        rw [if_neg hq]
        cases ok <;> simp [hc]
      · intro h0
        exfalso
        unfold add_sections at h0
        rw [if_pos hc2] at h0
        unfold _process_batch at h0
        rw [if_neg hq] at h0
        cases ok <;> simp at h0
    · have hc2 : ¬ (BATCH_SIZE ≤ (s.batch_queue ++
          [(⟨d ++ "_" ++ sfx, secs, now⟩ : BatchEntry)]).length ∨
          60 < (now - s.last_process_time) % 86400) := by
        simpa using hc
      constructor
      · unfold add_sections
        rw [if_neg hc2]
        simp [hc]
      · intro _
        unfold add_sections
        rw [if_neg hc2]
  · intro now last store items hlen htime
    exact enqueueAll_one_flush now items ⟨store, [], last⟩
      (by intro h; rw [h] at hlen; exact absurd hlen (by decide))
      (by simpa using hlen) htime
  · intro ok now last store
    rfl

/-- Witness for C4 (amended): ten empty-section enqueues from an empty
queue. -/
theorem C4_witness :
    ((List.replicate 10 (("d", "x", ([] : List Section)))).length = BATCH_SIZE ∧
      ((0 : Nat) - 0) % 86400 ≤ 60) ∧
    (enqueueAll true 0 ⟨[], [], 0⟩
      (List.replicate 10 (("d", "x", ([] : List Section))))).1.batch_queue = [] ∧
    (enqueueAll true 0 ⟨[], [], 0⟩
      (List.replicate 10 (("d", "x", ([] : List Section))))).2 = 1 :=
  ⟨⟨by decide, by decide⟩,
    (C4_enqueue_flush_conditions.2.1 0 0 []
      (List.replicate 10 (("d", "x", ([] : List Section)))) (by decide) (by decide)).1,
    (C4_enqueue_flush_conditions.2.1 0 0 []
      (List.replicate 10 (("d", "x", ([] : List Section)))) (by decide) (by decide)).2⟩

/-- C5: on a cache miss where the vector store returns zero sections,
`query` answers with the canned "nothing relevant found" message and
empty sources, and it issues no cache write for the question. -/
theorem C5_empty_retrieval_not_cached (question genText : String) (res : ChromaResult)
    (hz : res.documents = [] ∨ res.documents.headD [] = []) :
    (query none res genText question).1 = ⟨no_results_message, []⟩ ∧
    (query none res genText question).2 = [] := by
  unfold query
  rw [if_pos hz]
  exact ⟨rfl, rfl⟩

/-- Witness for C5 at an empty retrieval result. -/
theorem C5_witness :
    ((⟨[], []⟩ : ChromaResult).documents = [] ∨
      (⟨[], []⟩ : ChromaResult).documents.headD [] = []) ∧
    (query none ⟨[], []⟩ "g" "q").1 = ⟨no_results_message, []⟩ ∧
    (query none ⟨[], []⟩ "g" "q").2 = [] :=
  ⟨Or.inl rfl,
    (C5_empty_retrieval_not_cached "q" "g" ⟨[], []⟩ (Or.inl rfl)).1,
    (C5_empty_retrieval_not_cached "q" "g" ⟨[], []⟩ (Or.inl rfl)).2⟩

/-- C8: on a cache miss with a non-empty retrieval result, the Answer's
sources are exactly the retrieved sections' `{title, page, doc_id}`
metadata in store order, and the Answer is written to the cache under
`"query:" + question` with a 300-second TTL. -/
theorem C8_sources_order_and_cache_write (question genText : String) (res : ChromaResult)
    (hne : ¬ (res.documents = [] ∨ res.documents.headD [] = [])) :
    (query none res genText question).1.sources =
      (res.metadatas.headD []).map
        (fun m => (⟨m.title, m.page, m.doc_id⟩ : SourceRef)) ∧
    (query none res genText question).2 =
      [⟨"query:" ++ question, (query none res genText question).1, 300⟩] := by
  unfold query
  rw [if_neg hne]
  exact ⟨rfl, rfl⟩

/-- Witness for C8 at a one-document retrieval result. -/
theorem C8_witness :
    (¬ ((⟨[["body"]], [[⟨"d", "t", 4, 0⟩]]⟩ : ChromaResult).documents = [] ∨
      (⟨[["body"]], [[⟨"d", "t", 4, 0⟩]]⟩ : ChromaResult).documents.headD [] = [])) ∧
    (query none ⟨[["body"]], [[⟨"d", "t", 4, 0⟩]]⟩ "g" "q").1.sources =
      [⟨"t", 4, "d"⟩] ∧
    (query none ⟨[["body"]], [[⟨"d", "t", 4, 0⟩]]⟩ "g" "q").2 =
      [⟨"query:" ++ "q", ⟨"g", [⟨"t", 4, "d"⟩]⟩, 300⟩] :=
  ⟨by simp,
    (C8_sources_order_and_cache_write "q" "g" ⟨[["body"]], [[⟨"d", "t", 4, 0⟩]]⟩
      (by simp)).1.trans (by simp [_generate_response]),
    (C8_sources_order_and_cache_write "q" "g" ⟨[["body"]], [[⟨"d", "t", 4, 0⟩]]⟩
      (by simp)).2.trans (by simp [query, _generate_response])⟩

/-- C6: `get_page_text` returns the 1-based page's text exactly when the
index lies in `[1, number_of_pages]`, and fails with the range error
exactly when it does not. -/
theorem C6_get_page_text_range (pages : List String) (n : Int) :
    (1 ≤ n ∧ n ≤ (number_of_pages pages : Int) →
      get_page_text pages n = Except.ok (pages.getD (n - 1).toNat "")) ∧
    (get_page_text pages n =
        Except.error ("Page number " ++ toString n ++ " out of range") ↔
      ¬ (1 ≤ n ∧ n ≤ (number_of_pages pages : Int))) := by
  unfold get_page_text documentGetItem number_of_pages
  by_cases h : 0 ≤ n - 1 ∧ n - 1 < (pages.length : Int)
  · rw [if_pos h]
    refine ⟨fun _ => rfl, ?_, ?_⟩
    · intro hcontra
      exact absurd hcontra (by simp)
    · intro hn
      exact absurd ⟨by omega, by omega⟩ hn
  · rw [if_neg h]
    refine ⟨?_, ?_, ?_⟩
    · rintro ⟨h1, h2⟩
      exact absurd ⟨by omega, by omega⟩ h
    · rintro - ⟨h1, h2⟩
      exact h ⟨by omega, by omega⟩
    · intro _
      rfl

/-- Witness for C6 on a two-page document: page 1 succeeds, page 3
fails with the range error. -/
theorem C6_witness :
    (1 ≤ (1 : Int) ∧ (1 : Int) ≤ (number_of_pages ["p1", "p2"] : Int)) ∧
    get_page_text ["p1", "p2"] 1 = Except.ok "p1" ∧
    get_page_text ["p1", "p2"] 3 =
      Except.error ("Page number " ++ toString (3 : Int) ++ " out of range") :=
  ⟨⟨by decide, by decide⟩,
    ((C6_get_page_text_range ["p1", "p2"] 1).1 ⟨by decide, by decide⟩).trans rfl,
    (C6_get_page_text_range ["p1", "p2"] 3).2.mpr (by decide)⟩

/-- C9: each successful chat turn appends one Conversation Entry and the
history is trimmed to at most 5 entries, oldest first; recording 7
entries from an empty history retains exactly the last 5; the rendered
context is the preamble line followed by Q:/A: pairs of the last 2
entries only; and no context is passed when the history is empty. -/
theorem C9_conversation_window (e1 e2 e3 e4 e5 e6 e7 : ConvEntry) :
    (∀ (hist : List ConvEntry) (resp : Answer) (message ts : String),
      (chat hist (Except.ok resp) message ts).2 =
        recordEntry hist ⟨message, resp.answer, ts⟩) ∧
    (∀ (hist : List ConvEntry) (e : ConvEntry), hist.length ≤ 5 →
      (recordEntry hist e).length ≤ 5 ∧
      (hist.length < 5 → recordEntry hist e = hist ++ [e]) ∧
      (hist.length = 5 → recordEntry hist e = (hist ++ [e]).tail)) ∧
    recordAll [] [e1, e2, e3, e4, e5, e6, e7] = [e3, e4, e5, e6, e7] ∧
    _get_context [e3, e4, e5, e6, e7] =
      String.intercalate "\n" ["Recent conversation:",
        "Q: " ++ e6.question, "A: " ++ e6.answer ++ "\n",
        "Q: " ++ e7.question, "A: " ++ e7.answer ++ "\n"] ∧
    contextFor [] = none := by
  refine ⟨fun hist resp message ts => rfl, ?_, ?_, ?_, rfl⟩
  · intro hist e hle
    unfold recordEntry
    by_cases h5 : hist.length = 5
    · rw [if_pos (by simp [h5])]
      refine ⟨?_, fun hlt => absurd h5 (by omega), fun _ => rfl⟩
      simp [h5]
    · have hlt : hist.length < 5 := by omega
      rw [if_neg (by simp; omega)]
      exact ⟨by simp; omega, fun _ => rfl, fun heq => absurd heq h5⟩
  · simp [recordAll, recordEntry]
  · simp [_get_context]

/-- Witness for C9 at a length-1 history. -/
theorem C9_witness :
    ([(⟨"q", "a", "t"⟩ : ConvEntry)].length ≤ 5) ∧
    (recordEntry [⟨"q", "a", "t"⟩] ⟨"q2", "a2", "t2"⟩).length ≤ 5 ∧
    recordEntry [⟨"q", "a", "t"⟩] ⟨"q2", "a2", "t2"⟩ =
      [⟨"q", "a", "t"⟩] ++ [⟨"q2", "a2", "t2"⟩] :=
  ⟨by decide,
    ((C9_conversation_window ⟨"q", "a", "t"⟩ ⟨"q", "a", "t"⟩ ⟨"q", "a", "t"⟩
        ⟨"q", "a", "t"⟩ ⟨"q", "a", "t"⟩ ⟨"q", "a", "t"⟩ ⟨"q", "a", "t"⟩).2.1
      [⟨"q", "a", "t"⟩] ⟨"q2", "a2", "t2"⟩ (by decide)).1,
    ((C9_conversation_window ⟨"q", "a", "t"⟩ ⟨"q", "a", "t"⟩ ⟨"q", "a", "t"⟩
        ⟨"q", "a", "t"⟩ ⟨"q", "a", "t"⟩ ⟨"q", "a", "t"⟩ ⟨"q", "a", "t"⟩).2.1
      [⟨"q", "a", "t"⟩] ⟨"q2", "a2", "t2"⟩ (by decide)).2.1 (by decide)⟩

/-- C10: when the retriever query raises during a chat turn, `chat`
re-raises the error and leaves the conversation history exactly as it
was — no entry appended, none evicted. -/
theorem C10_chat_error_preserves_history (hist : List ConvEntry) (message ts : String) :
    chat hist (Except.error ()) message ts = (Except.error (), hist) := rfl

end App

